import Mathlib

/-!
Shallow embedding of the Adafruit MAX31856 thermocouple driver
(`Adafruit_MAX31856.cpp` / `Adafruit_MAX31856.h`) and proofs about its
register protocol and temperature decoding.

Modelling conventions:
* 8-bit registers are `Nat` values; every driver store masks with `&&& 0xFF`
  (the C++ code stores through `uint8_t`), every register read masks with
  `&&& 0xFF`.
* The chip's register file is a function `Nat → Nat` indexed by the 7-bit
  register address (the wire address sets bit 7 for writes and clears it for
  reads; the chip decodes the low 7 bits).
* `float`/`double` arithmetic is modelled in `ℚ`.  Every operation the driver
  performs on floating-point temperatures (divide by 256.0, multiply by
  0.0078125, multiply by 16) is a scaling by a power of two of an integer
  that fits in a `float` mantissa, so the rational model is exact.
* The C++ `NAN` sentinel is modelled as `Option.none`.
* Bus traffic is recorded as a list of `BusEv` events; each write event is
  annotated with the driver's stored conversion mode at the moment the write
  is issued.
-/

/-! ### Register addresses and configuration bits (from `Adafruit_MAX31856.h`) -/

def MAX31856_CR0_REG : Nat := 0x00
def MAX31856_CR0_AUTOCONVERT : Nat := 0x80
def MAX31856_CR0_1SHOT : Nat := 0x40
def MAX31856_CR0_OCFAULT0 : Nat := 0x10
def MAX31856_CR1_REG : Nat := 0x01
def MAX31856_MASK_REG : Nat := 0x02
def MAX31856_CJHF_REG : Nat := 0x03
def MAX31856_CJLF_REG : Nat := 0x04
def MAX31856_LTHFTH_REG : Nat := 0x05
def MAX31856_LTHFTL_REG : Nat := 0x06
def MAX31856_LTLFTH_REG : Nat := 0x07
def MAX31856_LTLFTL_REG : Nat := 0x08
def MAX31856_CJTO_REG : Nat := 0x09
def MAX31856_CJTH_REG : Nat := 0x0A
def MAX31856_LTCBH_REG : Nat := 0x0C
def MAX31856_LTCBM_REG : Nat := 0x0D
def MAX31856_LTCBL_REG : Nat := 0x0E
def MAX31856_SR_REG : Nat := 0x0F

/-- Conversion modes, from `max31856_conversion_mode_t`.
`MAX31856_ONESHOT` is the blocking one-shot mode. -/
inductive max31856_conversion_mode_t where
  | MAX31856_ONESHOT
  | MAX31856_ONESHOT_NOWAIT
  | MAX31856_CONTINUOUS
deriving DecidableEq

/-- Thermocouple types, from `max31856_thermocoupletype_t`. -/
inductive max31856_thermocoupletype_t where
  | MAX31856_TCTYPE_B
  | MAX31856_TCTYPE_E
  | MAX31856_TCTYPE_J
  | MAX31856_TCTYPE_K
  | MAX31856_TCTYPE_N
  | MAX31856_TCTYPE_R
  | MAX31856_TCTYPE_S
  | MAX31856_TCTYPE_T
  | MAX31856_VMODE_G8
  | MAX31856_VMODE_G32
deriving DecidableEq

/-- Numeric value of each enumerator of `max31856_thermocoupletype_t`. -/
def tcCode : max31856_thermocoupletype_t → Nat
  | .MAX31856_TCTYPE_B => 0b0000
  | .MAX31856_TCTYPE_E => 0b0001
  | .MAX31856_TCTYPE_J => 0b0010
  | .MAX31856_TCTYPE_K => 0b0011
  | .MAX31856_TCTYPE_N => 0b0100
  | .MAX31856_TCTYPE_R => 0b0101
  | .MAX31856_TCTYPE_S => 0b0110
  | .MAX31856_TCTYPE_T => 0b0111
  | .MAX31856_VMODE_G8 => 0b1000
  | .MAX31856_VMODE_G32 => 0b1100

/-- Noise filter options, from `max31856_noise_filter_t`. -/
inductive max31856_noise_filter_t where
  | MAX31856_NOISE_FILTER_50HZ
  | MAX31856_NOISE_FILTER_60HZ
deriving DecidableEq

/-- A bus event: a framed register read of `n` consecutive bytes, or a single
register write.  Writes carry the driver's stored conversion mode at the
moment the write is issued.  Addresses are the logical 7-bit register
addresses (the wire sets bit 7 on writes). -/
inductive BusEv where
  | rd (addr n : Nat)
  | wr (addr data : Nat) (mode : max31856_conversion_mode_t)
deriving DecidableEq

/-- Driver + chip state: the chip's register file and the two data members of
`Adafruit_MAX31856` (`conversionMode`, `initialized`). -/
structure DevState where
  regs : Nat → Nat
  conversionMode : max31856_conversion_mode_t
  initialized : Bool

/-! ### Register access primitives (from `readRegisterN` / `writeRegister8`
and their width wrappers).  `readRegisterN` relies on the chip's address
auto-increment, so an `n`-byte read at `addr` returns registers
`addr, addr+1, …`. -/

def readRegister8 (s : DevState) (addr : Nat) : Nat :=
  s.regs (addr &&& 0x7F) &&& 0xFF

def readRegister16 (s : DevState) (addr : Nat) : Nat :=
  (readRegister8 s addr <<< 8) ||| readRegister8 s (addr + 1)

def readRegister24 (s : DevState) (addr : Nat) : Nat :=
  ((readRegister8 s addr <<< 8 ||| readRegister8 s (addr + 1)) <<< 8) |||
    readRegister8 s (addr + 2)

def writeRegister8 (s : DevState) (addr data : Nat) : DevState × List BusEv :=
  (⟨fun a => if a = (addr &&& 0x7F) then data &&& 0xFF else s.regs a,
    s.conversionMode, s.initialized⟩,
   [BusEv.wr (addr &&& 0x7F) (data &&& 0xFF) s.conversionMode])

/-! ### Temperature decoding -/

/-- `readCJTemperature`: the 16-bit cold-junction register pair divided by
256.0.  Note the C++ code divides the **unsigned** `uint16_t` returned by
`readRegister16` by 256.0; there is no sign handling. -/
def readCJTemperature (s : DevState) : ℚ :=
  (readRegister16 s MAX31856_CJTH_REG : ℚ) / 256

/-- The sign fix in `readThermocoupleTemperature`: if bit 23 of the raw
24-bit value is set, OR in `0xFF000000`; the resulting 32-bit word is then
interpreted as a two's-complement `int32_t` (values `≥ 2^31` represent
`value − 2^32`). -/
def fixSign24 (raw : Nat) : Int :=
  if raw &&& 0x800000 ≠ 0 then ((raw ||| 0xFF000000 : Nat) : Int) - 2 ^ 32
  else (raw : Int)

/-- `temp24 >>= 5` on a signed `int32_t` is an arithmetic shift, i.e. floor
division by `2^5 = 32`. -/
def decodeTC (raw : Nat) : Int := (fixSign24 raw).fdiv 32

/-- The pure decode step of `readThermocoupleTemperature`: sign fix,
arithmetic shift right by 5, scale by 0.0078125. -/
def thermocoupleCelsius (raw : Nat) : ℚ := (decodeTC raw : ℚ) * 0.0078125

/-- Sign extension from bit 23 as the specification phrases it: a 24-bit
two's-complement value. -/
def signExtend24 (raw : Nat) : Int :=
  if raw < 0x800000 then (raw : Int) else (raw : Int) - 0x1000000

/-! ### Concrete example states -/

/-- State whose linearized-temperature registers hold bytes
`{0x19, 0x00, 0x00}`. -/
def tcPosState : DevState :=
  ⟨fun a => if a = MAX31856_LTCBH_REG then 0x19 else 0,
   .MAX31856_CONTINUOUS, true⟩

/-- State whose linearized-temperature registers hold bytes
`{0xE7, 0x00, 0x00}` (bit 23 of the raw value set). -/
def tcNegState : DevState :=
  ⟨fun a => if a = MAX31856_LTCBH_REG then 0xE7 else 0,
   .MAX31856_CONTINUOUS, true⟩

/-- State whose cold-junction registers hold bytes `{0xE7, 0x00}`
(raw 16-bit value `0xE700`, bit 15 set). -/
def cjNegState : DevState :=
  ⟨fun a => if a = MAX31856_CJTH_REG then 0xE7 else 0,
   .MAX31856_CONTINUOUS, true⟩

/-- Claim C2, counterexample: with linearized-temperature register bytes
`{0x19, 0x00, 0x00}` the decoded temperature is **not** 200.0 °C
(`0x190000 >> 5 = 51200` and `51200 × 0.0078125 = 400`). -/
theorem readTC_0x190000_ne_200 :
    thermocoupleCelsius (readRegister24 tcPosState MAX31856_LTCBH_REG) ≠ 200 := by
  have h : decodeTC (readRegister24 tcPosState MAX31856_LTCBH_REG) = 51200 := by decide
  unfold thermocoupleCelsius
  rw [h]
  norm_num

/-- Claim C2 (amended): with linearized-temperature register bytes
`{0x19, 0x00, 0x00}` the temperature decoded by
`readThermocoupleTemperature` equals 400.0 °C. -/
theorem readTC_0x190000_eq_400 :
    thermocoupleCelsius (readRegister24 tcPosState MAX31856_LTCBH_REG) = 400 := by
  have h : decodeTC (readRegister24 tcPosState MAX31856_LTCBH_REG) = 51200 := by decide
  unfold thermocoupleCelsius
  rw [h]
  norm_num

/-! ### Helper lemmas about bytes and byte assembly -/

lemma and_0xFF_lt (x : Nat) : x &&& 0xFF < 256 := by
  have h : x &&& 0xFF < 2 ^ 8 := Nat.and_lt_two_pow x (by norm_num)
  norm_num at h
  exact h

lemma shiftLeft8_or_eq (x b : Nat) (hb : b < 256) :
    (x <<< 8) ||| b = 256 * x + b := by
  have hb' : b < 2 ^ 8 := by norm_num at hb ⊢; omega
  calc (x <<< 8) ||| b = 2 ^ 8 * x ||| b := by
        rw [Nat.shiftLeft_eq, Nat.mul_comm]
    _ = 2 ^ 8 * x + b := (Nat.mul_add_lt_is_or hb' x).symm
    _ = 256 * x + b := by norm_num

/-- Big-endian assembly performed by `readRegister24`. -/
lemma readRegister24_eq (s : DevState) (addr : Nat) :
    readRegister24 s addr =
      65536 * (s.regs (addr &&& 0x7F) &&& 0xFF) +
        256 * (s.regs ((addr + 1) &&& 0x7F) &&& 0xFF) +
        (s.regs ((addr + 2) &&& 0x7F) &&& 0xFF) := by
  unfold readRegister24 readRegister8
  rw [shiftLeft8_or_eq _ _ (and_0xFF_lt _), shiftLeft8_or_eq _ _ (and_0xFF_lt _)]
  ring

lemma readRegister24_lt (s : DevState) (addr : Nat) :
    readRegister24 s addr < 0x1000000 := by
  rw [readRegister24_eq]
  have h0 := and_0xFF_lt (s.regs (addr &&& 0x7F))
  have h1 := and_0xFF_lt (s.regs ((addr + 1) &&& 0x7F))
  have h2 := and_0xFF_lt (s.regs ((addr + 2) &&& 0x7F))
  omega

/-- Big-endian assembly performed by `readRegister16`. -/
lemma readRegister16_eq (s : DevState) (addr : Nat) :
    readRegister16 s addr =
      256 * (s.regs (addr &&& 0x7F) &&& 0xFF) +
        (s.regs ((addr + 1) &&& 0x7F) &&& 0xFF) := by
  unfold readRegister16 readRegister8
  rw [shiftLeft8_or_eq _ _ (and_0xFF_lt _)]

/-- The test `raw & 0x800000` extracts bit 23. -/
lemma and_bit23 (raw : Nat) : raw &&& 0x800000 = raw / 8388608 % 2 * 8388608 := by
  have h := Nat.and_two_pow raw 23
  rw [Nat.toNat_testBit] at h
  norm_num at h
  exact h

lemma and_bit23_ne_zero {raw : Nat} (hlt : raw < 0x1000000) :
    raw &&& 0x800000 ≠ 0 ↔ 0x800000 ≤ raw := by
  rw [and_bit23]
  norm_num at hlt ⊢
  omega

/-- ORing `0xFF000000` into a 24-bit value is the same as adding it. -/
lemma or_0xFF000000 {raw : Nat} (hlt : raw < 0x1000000) :
    raw ||| 0xFF000000 = raw + 0xFF000000 := by
  have h : raw < 2 ^ 24 := by norm_num at hlt ⊢; omega
  calc raw ||| 0xFF000000 = 2 ^ 24 * 0xFF ||| raw := by
        rw [Nat.lor_comm]
    _ = 2 ^ 24 * 0xFF + raw := (Nat.mul_add_lt_is_or h 0xFF).symm
    _ = raw + 0xFF000000 := by norm_num; omega

/-- The OR-based sign fix of the C++ code agrees with two's-complement sign
extension from bit 23, for every 24-bit raw value. -/
lemma fixSign24_eq_signExtend24 {raw : Nat} (hlt : raw < 0x1000000) :
    fixSign24 raw = signExtend24 raw := by
  unfold fixSign24 signExtend24
  by_cases hbit : raw &&& 0x800000 ≠ 0
  · have hge : 0x800000 ≤ raw := (and_bit23_ne_zero hlt).mp hbit
    rw [if_pos hbit, if_neg (by omega), or_0xFF000000 hlt]
    push_cast
    omega
  · have hge : ¬ 0x800000 ≤ raw := fun h => hbit ((and_bit23_ne_zero hlt).mpr h)
    rw [if_neg hbit, if_pos (by omega)]

lemma decodeTC_neg {raw : Nat} (hlt : raw < 0x1000000) (hge : 0x800000 ≤ raw) :
    decodeTC raw < 0 := by
  unfold decodeTC
  rw [fixSign24_eq_signExtend24 hlt]
  unfold signExtend24
  rw [if_neg (by omega), Int.fdiv_eq_ediv _ (by norm_num)]
  omega

/-- Claim C3: the 24-bit raw value is assembled big-endian from the
linearized-temperature register triple; the decode ORs `0xFF000000` into the
value when bit 23 is set — which is exactly two's-complement sign extension
from bit 23 — then arithmetic-shifts the signed 32-bit value right by 5 bits
and multiplies by 0.0078125; for a raw value with bit 23 set the result is
negative. -/
theorem readTC_decode_spec (s : DevState) :
    readRegister24 s MAX31856_LTCBH_REG =
        65536 * (s.regs MAX31856_LTCBH_REG &&& 0xFF) +
          256 * (s.regs MAX31856_LTCBM_REG &&& 0xFF) +
          (s.regs MAX31856_LTCBL_REG &&& 0xFF) ∧
    thermocoupleCelsius (readRegister24 s MAX31856_LTCBH_REG) =
        ((signExtend24 (readRegister24 s MAX31856_LTCBH_REG)).fdiv 32 : ℚ) *
          0.0078125 ∧
    (0x800000 ≤ readRegister24 s MAX31856_LTCBH_REG →
        thermocoupleCelsius (readRegister24 s MAX31856_LTCBH_REG) < 0) := by
  refine ⟨?_, ?_, ?_⟩
  · rw [readRegister24_eq]
    norm_num [MAX31856_LTCBH_REG, MAX31856_LTCBM_REG, MAX31856_LTCBL_REG]
    simp only [show (12 : Nat) &&& 127 = 12 by decide,
      show (13 : Nat) &&& 127 = 13 by decide, show (14 : Nat) &&& 127 = 14 by decide]
  · unfold thermocoupleCelsius decodeTC
    rw [fixSign24_eq_signExtend24 (readRegister24_lt s _)]
  · intro hge
    unfold thermocoupleCelsius
    apply mul_neg_of_neg_of_pos
    · exact_mod_cast decodeTC_neg (readRegister24_lt s _) hge
    · norm_num

/-- Witness for claim C3, at register bytes `{0xE7, 0x00, 0x00}`
(raw `0xE70000`, bit 23 set): the decoded temperature is negative. -/
theorem readTC_decode_spec_witness :
    0x800000 ≤ readRegister24 tcNegState MAX31856_LTCBH_REG ∧
    thermocoupleCelsius (readRegister24 tcNegState MAX31856_LTCBH_REG) < 0 :=
  ⟨by decide, (readTC_decode_spec tcNegState).2.2 (by decide)⟩

/-- Claim C1 (code-bug evidence): `readCJTemperature` divides the **unsigned**
16-bit register value by 256.0 with no sign handling, so every result it can
return is nonnegative; at raw value `0xE700` (bit 15 set) it returns +231.0,
whereas the signed fixed-point decode the specification describes would yield
−25.0. -/
theorem readCJ_unsigned_no_negative :
    (∀ s : DevState, 0 ≤ readCJTemperature s) ∧
    readCJTemperature cjNegState = 231 := by
  constructor
  · intro s
    unfold readCJTemperature
    positivity
  · have h : readRegister16 cjNegState MAX31856_CJTH_REG = 0xE700 := by decide
    unfold readCJTemperature
    rw [h]
    norm_num

/-! ### Driver operations

`t &= ~MASK` on a `uint8_t` is modelled as `t &&& (0xFF ^^^ MASK)` (integer
promotion followed by truncation back to 8 bits). -/

/-- `setConversionMode`: store the mode, then read-modify-write CR0
(`AUTOCONVERT` on / `1SHOT` off for continuous, the reverse otherwise). -/
def setConversionMode (s : DevState) (mode : max31856_conversion_mode_t) :
    DevState × List BusEv :=
  let s1 : DevState := ⟨s.regs, mode, s.initialized⟩
  let t := readRegister8 s1 MAX31856_CR0_REG
  let t1 := if mode = .MAX31856_CONTINUOUS then
      (t ||| MAX31856_CR0_AUTOCONVERT) &&& (0xFF ^^^ MAX31856_CR0_1SHOT)
    else
      (t &&& (0xFF ^^^ MAX31856_CR0_AUTOCONVERT)) ||| MAX31856_CR0_1SHOT
  let r := writeRegister8 s1 MAX31856_CR0_REG t1
  (r.1, BusEv.rd MAX31856_CR0_REG 1 :: r.2)

def getConversionMode (s : DevState) : max31856_conversion_mode_t :=
  s.conversionMode

/-- `setThermocoupleType`: read CR1, clear the low nibble, OR in the 4-bit
type code, write back. -/
def setThermocoupleType (s : DevState) (ty : max31856_thermocoupletype_t) :
    DevState × List BusEv :=
  let t := readRegister8 s MAX31856_CR1_REG
  let t1 := (t &&& 0xF0) ||| (tcCode ty &&& 0x0F)
  let r := writeRegister8 s MAX31856_CR1_REG t1
  (r.1, BusEv.rd MAX31856_CR1_REG 1 :: r.2)

/-- `getThermocoupleType`: read CR1 and mask to the low nibble.  The C++
code casts the nibble straight back to the enum type, so the raw nibble is
what the caller receives. -/
def getThermocoupleType (s : DevState) : Nat :=
  readRegister8 s MAX31856_CR1_REG &&& 0x0F

/-- `triggerOneShot`: no-op in continuous mode, otherwise read-modify-write
CR0 clearing `AUTOCONVERT` and setting `1SHOT`. -/
def triggerOneShot (s : DevState) : DevState × List BusEv :=
  if s.conversionMode = .MAX31856_CONTINUOUS then (s, [])
  else
    let t := readRegister8 s MAX31856_CR0_REG
    let t1 := (t &&& (0xFF ^^^ MAX31856_CR0_AUTOCONVERT)) ||| MAX31856_CR0_1SHOT
    let r := writeRegister8 s MAX31856_CR0_REG t1
    (r.1, BusEv.rd MAX31856_CR0_REG 1 :: r.2)

/-- `conversionComplete`: `true` immediately in continuous mode; otherwise
one CR0 read, complete iff the `1SHOT` flag is clear. -/
def conversionComplete (s : DevState) : Bool × List BusEv :=
  if s.conversionMode = .MAX31856_CONTINUOUS then (true, [])
  else (readRegister8 s MAX31856_CR0_REG &&& MAX31856_CR0_1SHOT == 0,
        [BusEv.rd MAX31856_CR0_REG 1])

/-- `setNoiseFilter`: read-modify-write of bit 0 of CR0. -/
def setNoiseFilter (s : DevState) (nf : max31856_noise_filter_t) :
    DevState × List BusEv :=
  let t := readRegister8 s MAX31856_CR0_REG
  let t1 := if nf = .MAX31856_NOISE_FILTER_50HZ then t ||| 0x01 else t &&& 0xFE
  let r := writeRegister8 s MAX31856_CR0_REG t1
  (r.1, BusEv.rd MAX31856_CR0_REG 1 :: r.2)

/-- `readFault`: one read of the fault status register. -/
def readFault (s : DevState) : Nat × List BusEv :=
  (readRegister8 s MAX31856_SR_REG, [BusEv.rd MAX31856_SR_REG 1])

/-- `setColdJunctionFaultThreshholds`: two single-byte writes of the `int8_t`
thresholds (8-bit two's complement, i.e. the value modulo 256). -/
def setColdJunctionFaultThreshholds (s : DevState) (low high : Int) :
    DevState × List BusEv :=
  let r1 := writeRegister8 s MAX31856_CJLF_REG (low.emod 256).toNat
  let r2 := writeRegister8 r1.1 MAX31856_CJHF_REG (high.emod 256).toNat
  (r2.1, r1.2 ++ r2.2)

/-- `begin`: acquire the bus (`ok` models the result of `spi_dev.begin()`),
then configure the chip: fault mask 0, open-circuit fault detection, zero
cold-junction offset, type K, one-shot conversion mode. -/
def begin (ok : Bool) (s : DevState) : Bool × DevState × List BusEv :=
  let s0 : DevState := ⟨s.regs, s.conversionMode, ok⟩
  if !ok then (false, s0, [])
  else
    let r1 := writeRegister8 s0 MAX31856_MASK_REG 0x0
    let r2 := writeRegister8 r1.1 MAX31856_CR0_REG MAX31856_CR0_OCFAULT0
    let r3 := writeRegister8 r2.1 MAX31856_CJTO_REG 0x0
    let r4 := setThermocoupleType r3.1 .MAX31856_TCTYPE_K
    let r5 := setConversionMode r4.1 .MAX31856_ONESHOT
    (true, r5.1, r1.2 ++ r2.2 ++ r3.2 ++ r4.2 ++ r5.2)

/-! ### Claims about the type-configuration register (C5, C10) -/

lemma tcCode_lt (ty : max31856_thermocoupletype_t) : tcCode ty < 16 := by
  cases ty <;> decide

lemma and_0xFF_of_lt {v : Nat} (h : v < 256) : v &&& 0xFF = v := by
  have h2 : v < 2 ^ 8 := by omega
  have h3 := Nat.and_pow_two_sub_one_of_lt_two_pow h2
  norm_num at h3
  exact h3

set_option maxRecDepth 100000 in
lemma nibble_rmw : ∀ v < 256, ∀ c < 16,
    ((((v &&& 0xF0) ||| (c &&& 0x0F)) &&& 0xFF) &&& 0xFF) &&& 0x0F = c ∧
    (((v &&& 0xF0) ||| (c &&& 0x0F)) &&& 0xFF) &&& 0xF0 = v &&& 0xF0 := by
  decide

/-- The numeric codes of the ten defined thermocouple-type enumerators. -/
def definedTcCodes : List Nat :=
  [tcCode .MAX31856_TCTYPE_B, tcCode .MAX31856_TCTYPE_E, tcCode .MAX31856_TCTYPE_J,
   tcCode .MAX31856_TCTYPE_K, tcCode .MAX31856_TCTYPE_N, tcCode .MAX31856_TCTYPE_R,
   tcCode .MAX31856_TCTYPE_S, tcCode .MAX31856_TCTYPE_T, tcCode .MAX31856_VMODE_G8,
   tcCode .MAX31856_VMODE_G32]

/-- The register byte written by `setThermocoupleType`. -/
lemma setThermocoupleType_regs (s : DevState) (ty : max31856_thermocoupletype_t)
    (h : s.regs MAX31856_CR1_REG < 256) :
    (setThermocoupleType s ty).1.regs MAX31856_CR1_REG =
      ((s.regs MAX31856_CR1_REG &&& 0xF0) ||| (tcCode ty &&& 0x0F)) &&& 0xFF := by
  unfold setThermocoupleType writeRegister8 readRegister8
  simp only [MAX31856_CR1_REG] at h ⊢
  simp only [show (1 : Nat) &&& 0x7F = 1 by decide, if_pos rfl, if_true,
    and_0xFF_of_lt h]

/-- Claim C5: for every thermocouple type `ty` and every prior content of the
type-configuration register CR1, `setThermocoupleType` followed by
`getThermocoupleType` recovers exactly `ty`'s 4-bit code, and the upper 4
bits of CR1 are unchanged by `setThermocoupleType`. -/
theorem setThermocoupleType_roundtrip (s : DevState)
    (ty : max31856_thermocoupletype_t) (h : s.regs MAX31856_CR1_REG < 256) :
    getThermocoupleType (setThermocoupleType s ty).1 = tcCode ty ∧
    (setThermocoupleType s ty).1.regs MAX31856_CR1_REG &&& 0xF0 =
      s.regs MAX31856_CR1_REG &&& 0xF0 := by
  have hrmw := nibble_rmw (s.regs MAX31856_CR1_REG) h (tcCode ty) (tcCode_lt ty)
  have hregs := setThermocoupleType_regs s ty h
  constructor
  · unfold getThermocoupleType readRegister8
    rw [show (MAX31856_CR1_REG &&& 0x7F : Nat) = MAX31856_CR1_REG by decide, hregs]
    exact hrmw.1
  · rw [hregs]
    exact hrmw.2

/-- State whose CR1 register holds `0xA5`. -/
def cr1State : DevState :=
  ⟨fun a => if a = MAX31856_CR1_REG then 0xA5 else 0, .MAX31856_CONTINUOUS, true⟩

/-- Witness for claim C5, at prior CR1 content `0xA5` and type T (code 7):
readback returns 7 and the upper nibble `0xA0` is preserved. -/
theorem setThermocoupleType_roundtrip_witness :
    cr1State.regs MAX31856_CR1_REG < 256 ∧
    getThermocoupleType (setThermocoupleType cr1State .MAX31856_TCTYPE_T).1 =
      tcCode .MAX31856_TCTYPE_T ∧
    (setThermocoupleType cr1State .MAX31856_TCTYPE_T).1.regs MAX31856_CR1_REG
        &&& 0xF0 =
      cr1State.regs MAX31856_CR1_REG &&& 0xF0 :=
  ⟨by decide,
   (setThermocoupleType_roundtrip cr1State .MAX31856_TCTYPE_T (by decide)).1,
   (setThermocoupleType_roundtrip cr1State .MAX31856_TCTYPE_T (by decide)).2⟩

/-- Claim C7: in `MAX31856_CONTINUOUS` mode, `conversionComplete` returns
`true` and performs no bus traffic at all; in the one-shot modes it performs
exactly one read of CR0 and returns `true` iff the `1SHOT` flag is clear. -/
theorem conversionComplete_spec (s : DevState) :
    (s.conversionMode = .MAX31856_CONTINUOUS → conversionComplete s = (true, [])) ∧
    (s.conversionMode ≠ .MAX31856_CONTINUOUS →
      (conversionComplete s).2 = [BusEv.rd MAX31856_CR0_REG 1] ∧
      ((conversionComplete s).1 = true ↔
        s.regs MAX31856_CR0_REG &&& MAX31856_CR0_1SHOT = 0)) := by
  constructor
  · intro h
    unfold conversionComplete
    rw [if_pos h]
  · intro h
    unfold conversionComplete readRegister8
    rw [if_neg h]
    refine ⟨rfl, ?_⟩
    simp only [beq_iff_eq, MAX31856_CR0_REG, MAX31856_CR0_1SHOT]
    rw [show (0 : Nat) &&& 0x7F = 0 by decide, Nat.land_assoc,
      show (0xFF &&& 0x40 : Nat) = 0x40 by decide]

/-- All-zero register file, blocking one-shot mode. -/
def initState : DevState := ⟨fun _ => 0, .MAX31856_ONESHOT, false⟩

/-- Witness for claim C7: in continuous mode the result is `(true, [])` with
no register read; in one-shot mode the result tracks the `1SHOT` bit of CR0. -/
theorem conversionComplete_spec_witness :
    conversionComplete tcPosState = (true, []) ∧
    ((conversionComplete initState).1 = true ↔
      initState.regs MAX31856_CR0_REG &&& MAX31856_CR0_1SHOT = 0) :=
  ⟨(conversionComplete_spec tcPosState).1 rfl,
   ((conversionComplete_spec initState).2 (by decide)).2⟩

set_option maxRecDepth 100000 in
lemma nibble_mod : ∀ v < 256, (v &&& 0xFF) &&& 0x0F = v % 16 ∧ v % 16 < 16 := by
  decide

/-- Claim C10: `getThermocoupleType` returns the low 4 bits of the CR1
register content, a value below 16, with no validity filtering: when the
nibble is `0b1001 = 9` the returned value is not the code of any defined
enumerator and is passed to the caller unchanged. -/
theorem getThermocoupleType_spec (s : DevState)
    (h : s.regs MAX31856_CR1_REG < 256) :
    getThermocoupleType s = s.regs MAX31856_CR1_REG % 16 ∧
    getThermocoupleType s < 16 ∧
    (s.regs MAX31856_CR1_REG % 16 = 9 →
      definedTcCodes.contains (getThermocoupleType s) = false) := by
  obtain ⟨h1, h2⟩ := nibble_mod (s.regs MAX31856_CR1_REG) h
  have hget : getThermocoupleType s = s.regs MAX31856_CR1_REG % 16 := by
    unfold getThermocoupleType readRegister8
    rw [show (MAX31856_CR1_REG &&& 0x7F : Nat) = MAX31856_CR1_REG by decide]
    exact h1
  refine ⟨hget, ?_, ?_⟩
  · rw [hget]
    exact h2
  · intro h9
    rw [hget, h9]
    decide

/-- State whose CR1 register holds `0x59` (low nibble `0b1001`, not a defined
thermocouple-type code). -/
def cr1UndefState : DevState :=
  ⟨fun a => if a = MAX31856_CR1_REG then 0x59 else 0, .MAX31856_CONTINUOUS, true⟩

/-- Witness for claim C10, at CR1 content `0x59`: the returned nibble is
`0x59 % 16 = 9`, which is not a defined enumerator code. -/
theorem getThermocoupleType_spec_witness :
    cr1UndefState.regs MAX31856_CR1_REG < 256 ∧
    getThermocoupleType cr1UndefState = cr1UndefState.regs MAX31856_CR1_REG % 16 ∧
    definedTcCodes.contains (getThermocoupleType cr1UndefState) = false :=
  ⟨by decide, (getThermocoupleType_spec cr1UndefState (by decide)).1,
   (getThermocoupleType_spec cr1UndefState (by decide)).2.2 (by decide)⟩

/-! ### Thermocouple fault thresholds (C9) -/

/-- Truncation toward zero of a rational, as C++ float-to-integer conversion
behaves. -/
def truncQ (q : ℚ) : Int := if 0 ≤ q then ⌊q⌋ else ⌈q⌉

/-- Narrowing to `int16_t`: wrap modulo 2^16 and interpret as 16-bit
two's complement (`%` on `Int` is `Int.emod`, whose result is nonnegative
for a positive modulus). -/
def int16ofQ (q : ℚ) : Int :=
  let u := truncQ q % 65536
  if u < 32768 then u else u - 65536

/-- `setTempFaultThreshholds`: multiply each threshold by 16, narrow to
`int16_t`, then write the high byte (`high >> 8`, an arithmetic shift,
modelled as `Int.fdiv 256`) and the low byte (truncation to `uint8_t`,
modelled as `Int.emod 256`) of the high-threshold pair, then of the
low-threshold pair. -/
def setTempFaultThreshholds (s : DevState) (flow fhigh : ℚ) :
    DevState × List BusEv :=
  let low := int16ofQ (flow * 16)
  let high := int16ofQ (fhigh * 16)
  let r1 := writeRegister8 s MAX31856_LTHFTH_REG (high.fdiv 256 % 256).toNat
  let r2 := writeRegister8 r1.1 MAX31856_LTHFTL_REG (high % 256).toNat
  let r3 := writeRegister8 r2.1 MAX31856_LTLFTH_REG (low.fdiv 256 % 256).toNat
  let r4 := writeRegister8 r3.1 MAX31856_LTLFTL_REG (low % 256).toNat
  (r4.1, r1.2 ++ r2.2 ++ r3.2 ++ r4.2)

/-- The 16-bit fixed-point encoding (4 fractional bits) of a Celsius
threshold and its big-endian byte pair, as the specification describes it. -/
def thresholdBytes (q : ℚ) : Nat × Nat :=
  let n := (truncQ (q * 16) % 65536).toNat
  (n / 256, n % 256)

/-- The signed byte-extraction path of the C++ code (arithmetic shift and
`uint8_t` truncation of the `int16_t`) produces exactly the big-endian bytes
of the 16-bit unsigned encoding. -/
lemma int16ofQ_bytes (q : ℚ) :
    ((int16ofQ q).fdiv 256 % 256).toNat = (truncQ q % 65536).toNat / 256 ∧
    (int16ofQ q % 256).toNat = (truncQ q % 65536).toNat % 256 := by
  unfold int16ofQ
  have h0 : 0 ≤ truncQ q % 65536 := Int.emod_nonneg _ (by norm_num)
  have h1 : truncQ q % 65536 < 65536 := Int.emod_lt_of_pos _ (by norm_num)
  rw [Int.fdiv_eq_ediv _ (by norm_num)]
  by_cases hc : truncQ q % 65536 < 32768
  · rw [if_pos hc]
    constructor <;> omega
  · rw [if_neg hc]
    constructor <;> omega

/-- Claim C9: `setTempFaultThreshholds` encodes each Celsius threshold as a
16-bit signed fixed-point value with 4 fractional bits (multiply by 16,
truncate toward zero, wrap to `int16_t`) and writes the high byte then the
low byte of each threshold register pair (high-threshold pair first);
input 26.5 encodes to `0x01A8`, i.e. bytes `0x01` then `0xA8`. -/
theorem setTempFaultThreshholds_spec (s : DevState) (flow fhigh : ℚ) :
    (setTempFaultThreshholds s flow fhigh).2 =
      [BusEv.wr MAX31856_LTHFTH_REG (thresholdBytes fhigh).1 s.conversionMode,
       BusEv.wr MAX31856_LTHFTL_REG (thresholdBytes fhigh).2 s.conversionMode,
       BusEv.wr MAX31856_LTLFTH_REG (thresholdBytes flow).1 s.conversionMode,
       BusEv.wr MAX31856_LTLFTL_REG (thresholdBytes flow).2 s.conversionMode] ∧
    thresholdBytes (26.5 : ℚ) = (0x01, 0xA8) := by
  constructor
  · obtain ⟨hh1, hh2⟩ := int16ofQ_bytes (fhigh * 16)
    obtain ⟨hl1, hl2⟩ := int16ofQ_bytes (flow * 16)
    have bh : (truncQ (fhigh * 16) % 65536).toNat < 65536 := by
      have u1 := Int.emod_nonneg (truncQ (fhigh * 16)) (show (65536 : Int) ≠ 0 by norm_num)
      have u2 := Int.emod_lt_of_pos (truncQ (fhigh * 16)) (show (0 : Int) < 65536 by norm_num)
      omega
    have bl : (truncQ (flow * 16) % 65536).toNat < 65536 := by
      have u1 := Int.emod_nonneg (truncQ (flow * 16)) (show (65536 : Int) ≠ 0 by norm_num)
      have u2 := Int.emod_lt_of_pos (truncQ (flow * 16)) (show (0 : Int) < 65536 by norm_num)
      omega
    unfold setTempFaultThreshholds writeRegister8 thresholdBytes
    simp only [List.cons_append, List.nil_append]
    rw [hh1, hh2, hl1, hl2,
      and_0xFF_of_lt (show (truncQ (fhigh * 16) % 65536).toNat / 256 < 256 by omega),
      and_0xFF_of_lt (show (truncQ (fhigh * 16) % 65536).toNat % 256 < 256 by omega),
      and_0xFF_of_lt (show (truncQ (flow * 16) % 65536).toNat / 256 < 256 by omega),
      and_0xFF_of_lt (show (truncQ (flow * 16) % 65536).toNat % 256 < 256 by omega),
      show (MAX31856_LTHFTH_REG &&& 127 : Nat) = MAX31856_LTHFTH_REG by decide,
      show (MAX31856_LTHFTL_REG &&& 127 : Nat) = MAX31856_LTHFTL_REG by decide,
      show (MAX31856_LTLFTH_REG &&& 127 : Nat) = MAX31856_LTLFTH_REG by decide,
      show (MAX31856_LTLFTL_REG &&& 127 : Nat) = MAX31856_LTLFTL_REG by decide]
  · have h424 : truncQ ((26.5 : ℚ) * 16) = 424 := by
      unfold truncQ
      rw [if_pos (by norm_num), show ((26.5 : ℚ) * 16) = ((424 : Int) : ℚ) by norm_num]
      exact Int.floor_intCast 424
    unfold thresholdBytes
    rw [h424]
    decide

/-! ### Initialization (C8) -/

set_option maxRecDepth 100000 in
lemma or3_byte : ∀ v < 256, ((v &&& 240) ||| 3) &&& 255 = (v &&& 240) ||| 3 := by
  decide

/-- Claim C8: `begin` fails exactly when the bus transport cannot be acquired
(and then issues no bus traffic); on success it performs, in order: write
`0x00` to the fault-mask register, write the open-circuit-fault-detection
enable bits (`OCFAULT0 = 0x10`) to CR0, write `0x00` to the cold-junction
offset register, set the thermocouple type to K (read-modify-write of CR1,
low nibble `0x3`), and set the conversion mode to blocking one-shot
(read-modify-write of CR0, final value `0x50`), returning success. -/
theorem begin_spec (s : DevState) (ok : Bool)
    (h : s.regs MAX31856_CR1_REG < 256) :
    (ok = false → begin ok s = (false, ⟨s.regs, s.conversionMode, false⟩, [])) ∧
    (ok = true →
      (begin ok s).1 = true ∧
      (begin ok s).2.1.conversionMode = .MAX31856_ONESHOT ∧
      (begin ok s).2.2 =
        [BusEv.wr MAX31856_MASK_REG 0x00 s.conversionMode,
         BusEv.wr MAX31856_CR0_REG MAX31856_CR0_OCFAULT0 s.conversionMode,
         BusEv.wr MAX31856_CJTO_REG 0x00 s.conversionMode,
         BusEv.rd MAX31856_CR1_REG 1,
         BusEv.wr MAX31856_CR1_REG ((s.regs MAX31856_CR1_REG &&& 0xF0) ||| 0x03)
           s.conversionMode,
         BusEv.rd MAX31856_CR0_REG 1,
         BusEv.wr MAX31856_CR0_REG 0x50 .MAX31856_ONESHOT]) := by
  constructor
  · intro hok
    subst hok
    rfl
  · intro hok
    subst hok
    simp only [MAX31856_CR1_REG] at h
    unfold begin setConversionMode setThermocoupleType writeRegister8 readRegister8
    simp only [MAX31856_CR0_REG, MAX31856_CR1_REG, MAX31856_MASK_REG,
      MAX31856_CJTO_REG, MAX31856_CR0_OCFAULT0, MAX31856_CR0_AUTOCONVERT,
      MAX31856_CR0_1SHOT, tcCode]
    simp only [show (2 &&& 127 : Nat) = 2 by decide,
      show (0 &&& 127 : Nat) = 0 by decide, show (9 &&& 127 : Nat) = 9 by decide,
      show (1 &&& 127 : Nat) = 1 by decide, show (0 &&& 255 : Nat) = 0 by decide,
      show (16 &&& 255 : Nat) = 16 by decide, show (3 &&& 15 : Nat) = 3 by decide,
      show (255 ^^^ 128 : Nat) = 127 by decide, and_0xFF_of_lt h]
    norm_num
    simp only [show (16 &&& 255 : Nat) = 16 by decide,
      show (16 &&& 127 : Nat) = 16 by decide, show (16 ||| 64 : Nat) = 80 by decide,
      show (80 &&& 255 : Nat) = 80 by decide, and_0xFF_of_lt h,
      show ¬(max31856_conversion_mode_t.MAX31856_ONESHOT =
        max31856_conversion_mode_t.MAX31856_CONTINUOUS) by decide,
      if_false, or3_byte (s.regs 1) h]
    exact ⟨trivial, trivial⟩

/-- Witness for claim C8 at the all-zero register file: `begin` reports
failure with no bus traffic when the transport is unavailable, and success
with the final mode set to blocking one-shot when it is available. -/
theorem begin_spec_witness :
    initState.regs MAX31856_CR1_REG < 256 ∧
    begin false initState =
      (false, ⟨initState.regs, initState.conversionMode, false⟩, []) ∧
    (begin true initState).1 = true ∧
    (begin true initState).2.1.conversionMode = .MAX31856_ONESHOT :=
  ⟨by decide, (begin_spec initState false (by decide)).1 rfl,
   ((begin_spec initState true (by decide)).2 rfl).1,
   ((begin_spec initState true (by decide)).2 rfl).2.1⟩

/-! ### The blocking thermocouple read (C4)

`readThermocoupleTemperature` in blocking one-shot mode triggers a one-shot
conversion and then runs

    while (!conversionComplete()) { if (millis() - start > 250) return NAN; delay(10); }

The loop is modelled with an explicit elapsed-time counter that starts at 0
and advances by 10 per `delay(10)`; the register reads themselves are taken
as instantaneous.  Because CR0 changes under the hardware's control while
the driver waits, CR0 reads inside the loop go through a time-indexed oracle
`cr0AtTime : Nat → Nat` giving the register content at each elapsed time. -/

/-- One loop iteration at elapsed time `e`: poll `conversionComplete` (in
one-shot mode this is a CR0 read testing the `1SHOT` flag); if complete,
leave the loop; otherwise give up when `e > 250`, else `delay(10)` and
retry.  Returns whether the wait succeeded and the list of elapsed times at
which `conversionComplete` was polled.  The fuel bound is never reached:
the elapsed time grows by 10 from 0 and the loop stops at 260 at the
latest, so 30 iterations always suffice. -/
def pollLoop (cr0AtTime : Nat → Nat) : Nat → Nat → Bool × List Nat
  | 0, _ => (false, [])
  | fuel + 1, e =>
      if (cr0AtTime e &&& 0xFF) &&& MAX31856_CR0_1SHOT == 0 then (true, [e])
      else if e > 250 then (false, [e])
      else
        let r := pollLoop cr0AtTime fuel (e + 10)
        (r.1, e :: r.2)

/-- Result of one `readThermocoupleTemperature` call: the returned value
(`none` models the `NAN` sentinel), the driver/chip state after the initial
trigger, the bus events of the trigger and final register read, and the
elapsed times at which the conversion-complete poll ran. -/
structure TCRead where
  result : Option ℚ
  finalState : DevState
  events : List BusEv
  pollTimes : List Nat

/-- The CR0 byte written by `triggerOneShot` (autoconvert cleared, `1SHOT`
set). -/
def triggerData (s : DevState) : Nat :=
  (((s.regs MAX31856_CR0_REG &&& 0xFF) &&& (0xFF ^^^ MAX31856_CR0_AUTOCONVERT))
      ||| MAX31856_CR0_1SHOT) &&& 0xFF

/-- `readThermocoupleTemperature`: in blocking one-shot mode, trigger a
conversion and poll with a 250 ms budget, returning `none` (`NAN`) on
timeout; in the other modes, go straight to the 24-bit register read and
decode. -/
def readThermocoupleTemperature (s : DevState) (cr0AtTime : Nat → Nat) : TCRead :=
  if s.conversionMode = .MAX31856_ONESHOT then
    let r := triggerOneShot s
    let p := pollLoop cr0AtTime 30 0
    if p.1 then
      { result := some (thermocoupleCelsius (readRegister24 r.1 MAX31856_LTCBH_REG)),
        finalState := r.1,
        events := r.2 ++ [BusEv.rd MAX31856_LTCBH_REG 3],
        pollTimes := p.2 }
    else
      { result := none, finalState := r.1, events := r.2, pollTimes := p.2 }
  else
    { result := some (thermocoupleCelsius (readRegister24 s MAX31856_LTCBH_REG)),
      finalState := s,
      events := [BusEv.rd MAX31856_LTCBH_REG 3],
      pollTimes := [] }

set_option maxRecDepth 100000 in
lemma trigger_bit : ∀ v < 256,
    ((((v &&& (0xFF ^^^ MAX31856_CR0_AUTOCONVERT)) ||| MAX31856_CR0_1SHOT)
        &&& 0xFF) &&& MAX31856_CR0_1SHOT) = MAX31856_CR0_1SHOT := by
  decide

/-- Under an oracle that never clears the `1SHOT` flag, the polling loop
fails at elapsed time 260 and polls exactly at 0, 10, …, 260. -/
lemma pollLoop_never (c : Nat → Nat)
    (h : ∀ t, (c t &&& 0xFF) &&& MAX31856_CR0_1SHOT ≠ 0) :
    pollLoop c 30 0 =
      (false, [0, 10, 20, 30, 40, 50, 60, 70, 80, 90, 100, 110, 120, 130, 140,
        150, 160, 170, 180, 190, 200, 210, 220, 230, 240, 250, 260]) := by
  have hb : ∀ t, ((c t &&& 0xFF) &&& MAX31856_CR0_1SHOT == 0) = false := by
    intro t
    simpa using h t
  simp only [pollLoop, hb]
  norm_num

/-- Claim C4: when the stored mode is blocking one-shot and the chip never
clears the `1SHOT` flag, `readThermocoupleTemperature` triggers a one-shot
conversion (one CR0 read-modify-write whose written byte has `1SHOT` set),
polls `conversionComplete` at a fixed 10 ms interval (elapsed times 0, 10,
…, 260) and returns the `NAN` sentinel (`none`) once the 250 ms budget has
expired; in the other two modes it performs no triggering and no polling,
going straight to the 24-bit temperature read. -/
theorem readTC_oneshot_spec (s : DevState) (cr0AtTime : Nat → Nat) :
    (s.conversionMode = .MAX31856_ONESHOT →
      (∀ t, (cr0AtTime t &&& 0xFF) &&& MAX31856_CR0_1SHOT ≠ 0) →
      (readThermocoupleTemperature s cr0AtTime).result = none ∧
      (readThermocoupleTemperature s cr0AtTime).events =
        [BusEv.rd MAX31856_CR0_REG 1,
         BusEv.wr MAX31856_CR0_REG (triggerData s) .MAX31856_ONESHOT] ∧
      triggerData s &&& MAX31856_CR0_1SHOT = MAX31856_CR0_1SHOT ∧
      (readThermocoupleTemperature s cr0AtTime).pollTimes =
        [0, 10, 20, 30, 40, 50, 60, 70, 80, 90, 100, 110, 120, 130, 140, 150,
         160, 170, 180, 190, 200, 210, 220, 230, 240, 250, 260]) ∧
    (s.conversionMode ≠ .MAX31856_ONESHOT →
      readThermocoupleTemperature s cr0AtTime =
        { result := some (thermocoupleCelsius (readRegister24 s MAX31856_LTCBH_REG)),
          finalState := s,
          events := [BusEv.rd MAX31856_LTCBH_REG 3],
          pollTimes := [] }) := by
  constructor
  · intro hm hnever
    have hp := pollLoop_never cr0AtTime hnever
    have hbit := trigger_bit (s.regs MAX31856_CR0_REG &&& 0xFF)
      (and_0xFF_lt (s.regs MAX31856_CR0_REG))
    unfold readThermocoupleTemperature triggerOneShot writeRegister8 readRegister8
    rw [if_pos hm, hp, hm]
    norm_num [show (MAX31856_CR0_REG &&& 0x7F : Nat) = MAX31856_CR0_REG by decide,
      show ¬(max31856_conversion_mode_t.MAX31856_ONESHOT =
        max31856_conversion_mode_t.MAX31856_CONTINUOUS) by decide,
      triggerData, hbit]
  · intro hm
    unfold readThermocoupleTemperature
    rw [if_neg hm]

/-- A CR0 oracle that never clears the `1SHOT` flag: every read returns a
byte with `1SHOT` set. -/
def stuckCr0 : Nat → Nat := fun _ => MAX31856_CR0_1SHOT

/-- Witness for claim C4: with the all-zero one-shot-mode state and a chip
that never clears `1SHOT`, the blocking read returns the `NAN` sentinel
after polling at 0, 10, …, 260 ms; in continuous mode (`tcPosState`) no
polling happens at all. -/
theorem readTC_oneshot_spec_witness :
    (readThermocoupleTemperature initState stuckCr0).result = none ∧
    (readThermocoupleTemperature initState stuckCr0).pollTimes =
      [0, 10, 20, 30, 40, 50, 60, 70, 80, 90, 100, 110, 120, 130, 140, 150,
       160, 170, 180, 190, 200, 210, 220, 230, 240, 250, 260] ∧
    (readThermocoupleTemperature tcPosState stuckCr0).pollTimes = [] :=
  ⟨((readTC_oneshot_spec initState stuckCr0).1 rfl (fun t => by
      show MAX31856_CR0_1SHOT &&& 255 &&& MAX31856_CR0_1SHOT ≠ 0
      decide)).1,
   ((readTC_oneshot_spec initState stuckCr0).1 rfl (fun t => by
      show MAX31856_CR0_1SHOT &&& 255 &&& MAX31856_CR0_1SHOT ≠ 0
      decide)).2.2.2,
   congrArg TCRead.pollTimes
     ((readTC_oneshot_spec tcPosState stuckCr0).2 (by decide))⟩

/-! ### CR0 writes across arbitrary operation sequences (C6) -/

lemma andFF40 (x : Nat) : (x &&& 0xFF) &&& MAX31856_CR0_1SHOT = x &&& MAX31856_CR0_1SHOT := by
  rw [Nat.land_assoc, show ((0xFF &&& MAX31856_CR0_1SHOT : Nat)) = MAX31856_CR0_1SHOT by decide]

lemma andFF80 (x : Nat) : (x &&& 0xFF) &&& MAX31856_CR0_AUTOCONVERT = x &&& MAX31856_CR0_AUTOCONVERT := by
  rw [Nat.land_assoc, show ((0xFF &&& MAX31856_CR0_AUTOCONVERT : Nat)) = MAX31856_CR0_AUTOCONVERT by decide]

set_option maxRecDepth 100000 in
lemma cmA : ∀ v < 256,
    ((((v ||| MAX31856_CR0_AUTOCONVERT) &&& (0xFF ^^^ MAX31856_CR0_1SHOT)) &&& 0xFF)
      &&& MAX31856_CR0_1SHOT) = 0 := by
  decide

set_option maxRecDepth 100000 in
lemma cmB : ∀ v < 256,
    ((((v &&& (0xFF ^^^ MAX31856_CR0_AUTOCONVERT)) ||| MAX31856_CR0_1SHOT) &&& 0xFF)
      &&& MAX31856_CR0_AUTOCONVERT) = 0 := by
  decide

set_option maxRecDepth 100000 in
lemma nz40 : ∀ v < 256, v &&& MAX31856_CR0_1SHOT = 0 →
    (((v ||| 0x01) &&& 0xFF) &&& MAX31856_CR0_1SHOT = 0 ∧
     ((v &&& 0xFE) &&& 0xFF) &&& MAX31856_CR0_1SHOT = 0) := by
  decide

set_option maxRecDepth 100000 in
lemma nz80 : ∀ v < 256, v &&& MAX31856_CR0_AUTOCONVERT = 0 →
    (((v ||| 0x01) &&& 0xFF) &&& MAX31856_CR0_AUTOCONVERT = 0 ∧
     ((v &&& 0xFE) &&& 0xFF) &&& MAX31856_CR0_AUTOCONVERT = 0) := by
  decide

/-- A driver operation, plus the one hardware action relevant to CR0: the
chip autonomously clearing the `1SHOT` flag when a conversion finishes.
(`readThermocoupleTemperature`'s only CR0 write goes through
`triggerOneShot`, which is listed here.) -/
inductive Op where
  | opSetConversionMode (m : max31856_conversion_mode_t)
  | opTriggerOneShot
  | opSetNoiseFilter (f : max31856_noise_filter_t)
  | opSetThermocoupleType (t : max31856_thermocoupletype_t)
  | opSetColdJunctionFaultThreshholds (lo hi : Int)
  | opSetTempFaultThreshholds (lo hi : ℚ)
  | opReadFault
  | opConversionComplete
  | opBegin (ok : Bool)
  | opHwClearOneShot

/-- One operation: resulting state and the bus events it issues. -/
def step (s : DevState) : Op → DevState × List BusEv
  | .opSetConversionMode m => setConversionMode s m
  | .opTriggerOneShot => triggerOneShot s
  | .opSetNoiseFilter f => setNoiseFilter s f
  | .opSetThermocoupleType t => setThermocoupleType s t
  | .opSetColdJunctionFaultThreshholds lo hi =>
      setColdJunctionFaultThreshholds s lo hi
  | .opSetTempFaultThreshholds lo hi => setTempFaultThreshholds s lo hi
  | .opReadFault => (s, (readFault s).2)
  | .opConversionComplete => (s, (conversionComplete s).2)
  | .opBegin ok => ((begin ok s).2.1, (begin ok s).2.2)
  | .opHwClearOneShot =>
      (⟨fun a => if a = MAX31856_CR0_REG then
          s.regs a &&& (0xFF ^^^ MAX31856_CR0_1SHOT) else s.regs a,
        s.conversionMode, s.initialized⟩, [])

/-- Run a sequence of operations, accumulating the bus trace. -/
def run (s : DevState) : List Op → DevState × List BusEv
  | [] => (s, [])
  | op :: ops =>
      ((run (step s op).1 ops).1, (step s op).2 ++ (run (step s op).1 ops).2)

/-- CR0 consistency invariant: in continuous mode the register's `1SHOT`
flag is clear, in the one-shot modes its `AUTOCONVERT` flag is clear. -/
def CR0Inv (s : DevState) : Prop :=
  (s.conversionMode = .MAX31856_CONTINUOUS →
    s.regs MAX31856_CR0_REG &&& MAX31856_CR0_1SHOT = 0) ∧
  (s.conversionMode ≠ .MAX31856_CONTINUOUS →
    s.regs MAX31856_CR0_REG &&& MAX31856_CR0_AUTOCONVERT = 0)

/-- What claim C6 requires of each bus event: a CR0 write issued while the
stored mode is CONTINUOUS must not have the `1SHOT` flag set, and one issued
while the stored mode is a one-shot mode must not have `AUTOCONVERT` set. -/
def evOK : BusEv → Bool
  | .rd _ _ => true
  | .wr addr data mode =>
      if addr = MAX31856_CR0_REG then
        if mode = .MAX31856_CONTINUOUS then data &&& MAX31856_CR0_1SHOT == 0
        else data &&& MAX31856_CR0_AUTOCONVERT == 0
      else true

lemma step_ok (s : DevState) (op : Op) (hInv : CR0Inv s) :
    CR0Inv (step s op).1 ∧ (step s op).2.all evOK = true := by
  obtain ⟨hc, ho⟩ := hInv
  cases op with
  | opSetConversionMode m =>
      have hv := and_0xFF_lt (s.regs MAX31856_CR0_REG)
      unfold step setConversionMode writeRegister8 readRegister8 evOK
      simp only [show (MAX31856_CR0_REG &&& 0x7F : Nat) = MAX31856_CR0_REG by decide]
      by_cases hm : m = max31856_conversion_mode_t.MAX31856_CONTINUOUS
      · simp only [hm, CR0Inv, List.all_cons, List.all_nil, Bool.and_eq_true,
          beq_iff_eq, eq_self_iff_true, if_true, true_and, and_true]
        exact ⟨⟨fun _ => cmA _ hv, fun hne => absurd rfl hne⟩, cmA _ hv⟩
      · simp only [if_neg hm, CR0Inv, List.all_cons, List.all_nil,
          Bool.and_eq_true, beq_iff_eq, eq_self_iff_true, if_true, true_and,
          and_true]
        exact ⟨⟨fun heq => absurd heq hm, fun _ => cmB _ hv⟩, cmB _ hv⟩
  | opTriggerOneShot =>
      have hv := and_0xFF_lt (s.regs MAX31856_CR0_REG)
      unfold step triggerOneShot writeRegister8 readRegister8 evOK
      by_cases hm : s.conversionMode = max31856_conversion_mode_t.MAX31856_CONTINUOUS
      · simp only [if_pos hm]
        exact ⟨⟨hc, ho⟩, rfl⟩
      · simp only [if_neg hm,
          show (MAX31856_CR0_REG &&& 0x7F : Nat) = MAX31856_CR0_REG by decide,
          CR0Inv, List.all_cons, List.all_nil, Bool.and_eq_true, beq_iff_eq,
          eq_self_iff_true, if_true, true_and, and_true]
        exact ⟨⟨fun heq => absurd heq hm, fun _ => cmB _ hv⟩, cmB _ hv⟩
  | opSetNoiseFilter f =>
      have hv := and_0xFF_lt (s.regs MAX31856_CR0_REG)
      unfold step setNoiseFilter writeRegister8 readRegister8 evOK
      simp only [show (MAX31856_CR0_REG &&& 0x7F : Nat) = MAX31856_CR0_REG by decide,
        CR0Inv, List.all_cons, List.all_nil, Bool.and_eq_true, beq_iff_eq,
        eq_self_iff_true, if_true, true_and, and_true]
      by_cases hm : s.conversionMode = max31856_conversion_mode_t.MAX31856_CONTINUOUS
      · have hbit : (s.regs MAX31856_CR0_REG &&& 0xFF) &&& MAX31856_CR0_1SHOT = 0 := by
          rw [andFF40]
          exact hc hm
        have hz := nz40 _ hv hbit
        by_cases hf : f = max31856_noise_filter_t.MAX31856_NOISE_FILTER_50HZ
        · simp only [hf, eq_self_iff_true, if_true, if_pos hm, hm, beq_iff_eq,
            true_and, and_true]
          exact ⟨⟨fun _ => hz.1, fun hne => absurd rfl hne⟩, hz.1⟩
        · simp only [if_neg hf, if_pos hm, hm, beq_iff_eq, eq_self_iff_true,
            if_true, true_and, and_true]
          exact ⟨⟨fun _ => hz.2, fun hne => absurd rfl hne⟩, hz.2⟩
      · have hbit : (s.regs MAX31856_CR0_REG &&& 0xFF) &&& MAX31856_CR0_AUTOCONVERT = 0 := by
          rw [andFF80]
          exact ho hm
        have hz := nz80 _ hv hbit
        by_cases hf : f = max31856_noise_filter_t.MAX31856_NOISE_FILTER_50HZ
        · simp only [hf, eq_self_iff_true, if_true, if_neg hm, beq_iff_eq,
            true_and, and_true]
          exact ⟨⟨fun heq => absurd heq hm, fun _ => hz.1⟩, hz.1⟩
        · simp only [if_neg hf, if_neg hm, beq_iff_eq, eq_self_iff_true,
            if_true, true_and, and_true]
          exact ⟨⟨fun heq => absurd heq hm, fun _ => hz.2⟩, hz.2⟩
  | opSetThermocoupleType t =>
      refine ⟨⟨fun hm => ?_, fun hm => ?_⟩, rfl⟩
      · exact hc hm
      · exact ho hm
  | opSetColdJunctionFaultThreshholds lo hi =>
      refine ⟨⟨fun hm => ?_, fun hm => ?_⟩, rfl⟩
      · exact hc hm
      · exact ho hm
  | opSetTempFaultThreshholds lo hi =>
      refine ⟨⟨fun hm => ?_, fun hm => ?_⟩, rfl⟩
      · exact hc hm
      · exact ho hm
  | opReadFault =>
      exact ⟨⟨hc, ho⟩, rfl⟩
  | opConversionComplete =>
      by_cases hm : s.conversionMode = max31856_conversion_mode_t.MAX31856_CONTINUOUS
      · unfold step conversionComplete
        simp only [if_pos hm]
        exact ⟨⟨hc, ho⟩, rfl⟩
      · unfold step conversionComplete
        simp only [if_neg hm]
        exact ⟨⟨hc, ho⟩, rfl⟩
  | opBegin ok =>
      cases ok with
      | false => exact ⟨⟨hc, ho⟩, rfl⟩
      | true =>
          unfold step begin setConversionMode setThermocoupleType writeRegister8
            readRegister8 evOK CR0Inv
          simp only [MAX31856_CR0_REG, MAX31856_CR1_REG, MAX31856_MASK_REG,
            MAX31856_CJTO_REG, MAX31856_CR0_OCFAULT0, MAX31856_CR0_AUTOCONVERT,
            MAX31856_CR0_1SHOT, tcCode]
          simp only [show (2 &&& 127 : Nat) = 2 by decide,
            show (0 &&& 127 : Nat) = 0 by decide,
            show (9 &&& 127 : Nat) = 9 by decide,
            show (1 &&& 127 : Nat) = 1 by decide,
            show (0 &&& 255 : Nat) = 0 by decide,
            show (16 &&& 255 : Nat) = 16 by decide,
            show (3 &&& 15 : Nat) = 3 by decide,
            show (255 ^^^ 128 : Nat) = 127 by decide]
          norm_num
          simp only [show (16 &&& 255 : Nat) = 16 by decide,
            show (16 &&& 127 : Nat) = 16 by decide,
            show (16 ||| 64 : Nat) = 80 by decide,
            show (80 &&& 255 : Nat) = 80 by decide,
            show ¬(max31856_conversion_mode_t.MAX31856_ONESHOT =
              max31856_conversion_mode_t.MAX31856_CONTINUOUS) by decide,
            if_false, show (80 &&& 128 : Nat) = 0 by decide,
            show ((16 &&& 64 : Nat) == 0) = true by decide,
            show ((16 &&& 128 : Nat) == 0) = true by decide,
            show ((80 &&& 128 : Nat) == 0) = true by decide,
            ite_self, eq_self_iff_true, if_true, true_and, and_true]
          norm_num [show (16 &&& 64 : Nat) = 0 by decide,
            show (16 &&& 128 : Nat) = 0 by decide]
  | opHwClearOneShot =>
      refine ⟨⟨fun hm => ?_, fun hm => ?_⟩, rfl⟩
      · show (s.regs MAX31856_CR0_REG &&& (0xFF ^^^ MAX31856_CR0_1SHOT))
            &&& MAX31856_CR0_1SHOT = 0
        rw [Nat.land_assoc,
          show ((0xFF ^^^ MAX31856_CR0_1SHOT : Nat) &&& MAX31856_CR0_1SHOT) = 0 by decide,
          Nat.and_zero]
      · show (s.regs MAX31856_CR0_REG &&& (0xFF ^^^ MAX31856_CR0_1SHOT))
            &&& MAX31856_CR0_AUTOCONVERT = 0
        rw [Nat.land_assoc,
          show ((0xFF ^^^ MAX31856_CR0_1SHOT : Nat) &&& MAX31856_CR0_AUTOCONVERT) =
            MAX31856_CR0_AUTOCONVERT by decide]
        exact ho hm

/-- Claim C6: from any state satisfying the CR0 consistency invariant (which
`begin` establishes), every write the driver issues to the main
configuration register across an arbitrary sequence of operations respects
the stored mode at the moment of the write: no `1SHOT` flag while the mode
is CONTINUOUS, no `AUTOCONVERT` flag while the mode is a one-shot mode. -/
theorem driver_cr0_writes_mode_consistent (s : DevState) (ops : List Op)
    (hInv : CR0Inv s) :
    ((run s ops).2.all evOK) = true := by
  induction ops generalizing s with
  | nil => rfl
  | cons op ops ih =>
      have h1 := step_ok s op hInv
      unfold run
      rw [List.all_append, Bool.and_eq_true]
      exact ⟨h1.2, ih (step s op).1 h1.1⟩

/-- A sample operation sequence exercising every CR0-writing operation in
both stored modes, including the hardware clearing `1SHOT`. -/
def demoOps : List Op :=
  [.opBegin true, .opSetConversionMode .MAX31856_CONTINUOUS,
   .opSetNoiseFilter .MAX31856_NOISE_FILTER_50HZ, .opHwClearOneShot,
   .opSetConversionMode .MAX31856_ONESHOT, .opTriggerOneShot,
   .opSetThermocoupleType .MAX31856_TCTYPE_J, .opConversionComplete,
   .opReadFault, .opSetColdJunctionFaultThreshholds (-10) 85]

/-- Witness for claim C6: the all-zero one-shot state satisfies the
invariant and the sample operation sequence produces only mode-consistent
CR0 writes. -/
theorem driver_cr0_writes_mode_consistent_witness :
    CR0Inv initState ∧ ((run initState demoOps).2.all evOK) = true :=
  ⟨⟨by decide, by decide⟩,
   driver_cr0_writes_mode_consistent initState demoOps ⟨by decide, by decide⟩⟩
